import Mathlib

/-!
Verification of the go-http-utils library: the response envelope
(package response), the classified error type (package apperr) and the
request pipeline helpers (package httputils), embedded shallowly.
The embedding follows the final revision of each file: the Response
struct with field order status, error, data and omitempty on error and
data; HTTPError carrying Code, Message and an optional Data payload;
and the httputils helpers built on writeJSON.  A Go value of type any
is represented by its JSON image, an Option Json where none stands for
the nil interface.  An http.ResponseWriter is modelled by the response
it ends up holding; a slog.Logger by the list of records emitted.
-/

set_option linter.unusedVariables false

/-- JSON values, the wire format written by encoding/json. -/
inductive Json where
  | null : Json
  | bool : Bool → Json
  | num : Int → Json
  | str : String → Json
  | arr : List Json → Json
  | obj : List (String × Json) → Json

/-- The observable effect on an http.ResponseWriter: the Content-Type
header, the status code passed to WriteHeader, and the encoded body. -/
structure HTTPResponse where
  contentType : String
  statusCode : Int
  body : Json

/-- Levels of the slog records this library emits. -/
inductive LogLevel where
  | error : LogLevel
  | info : LogLevel

/-- One structured log record: level, message and attribute key-values. -/
structure LogRecord where
  level : LogLevel
  msg : String
  attrs : List (String × String)

namespace apperr

/-- HTTPError from package apperr: status code, client-facing message and
optional structured payload (Data is a Go any; none models nil). -/
structure HTTPError where
  Code : Int
  Message : String
  Data : Option Json

/-- The Error method of HTTPError: returns the message string. -/
def HTTPError.Error (e : HTTPError) : String :=
  e.Message

/-- New returns an HTTPError with the given code and message, Data nil. -/
def New (code : Int) (msg : String) : HTTPError :=
  ⟨code, msg, none⟩

/-- NewWithData returns an HTTPError with the given code, message and data. -/
def NewWithData (code : Int) (msg : String) (data : Option Json) : HTTPError :=
  ⟨code, msg, data⟩

end apperr

/-- A Go error value as seen by WriteHTTPError: either a classified
apperr.HTTPError (possibly wrapped; errors.As finds it in the chain), or
any other error, of which only the Error() text is observable. -/
inductive GoError where
  | classified : apperr.HTTPError → GoError
  | unclassified : String → GoError

namespace response

/-- The response envelope of package response (final revision): fields in
declaration order status, error, data; error and data carry omitempty. -/
structure Response where
  status : String
  error : String
  data : Option Json

/-- The StatusOK constant. -/
def StatusOK : String := "OK"

/-- The StatusError constant. -/
def StatusError : String := "Error"

/-- OK returns the bare success envelope. -/
def OK : Response :=
  ⟨StatusOK, "", none⟩

/-- DataOK returns a success envelope carrying the given data. -/
def DataOK (data : Option Json) : Response :=
  ⟨StatusOK, "", data⟩

/-- DataWithError returns an error envelope carrying both message and data. -/
def DataWithError (msg : String) (data : Option Json) : Response :=
  ⟨StatusError, msg, data⟩

/-- Error returns an error envelope with the given message and no data. -/
def Error (msg : String) : Response :=
  ⟨StatusError, msg, none⟩

/-- json.Marshal of a Response: fields in declaration order; the error
field is omitted when it is the empty string and the data field is
omitted when the interface is nil (omitempty semantics). -/
def encodeResponse (r : Response) : Json :=
  Json.obj ([("status", Json.str r.status)]
    ++ (if r.error = "" then [] else [("error", Json.str r.error)])
    ++ (match r.data with
        | none => []
        | some d => [("data", d)]))

/-- Last binding of a key in an object, since encoding/json lets the last
duplicate key win when unmarshalling. -/
def lookupLast (key : String) : List (String × Json) → Option Json
  | [] => none
  | (k, v) :: rest =>
    match lookupLast key rest with
    | some r => some r
    | none => if k = key then some v else none

/-- json.Unmarshal of one string-typed struct field: an absent key or a
JSON null leaves the zero value "", a JSON string is taken verbatim, and
any other shape is a type error. -/
def decodeStringField (fields : List (String × Json)) (key : String) : Option String :=
  match lookupLast key fields with
  | none => some ""
  | some Json.null => some ""
  | some (Json.str s) => some s
  | some _ => none

/-- json.Unmarshal of one any-typed struct field: an absent key or a JSON
null yields the nil interface, any other value is stored as is. -/
def decodeAnyField (fields : List (String × Json)) (key : String) : Option Json :=
  match lookupLast key fields with
  | none => none
  | some Json.null => none
  | some v => some v

/-- json.Unmarshal of a Response from a JSON value: the top level must be
an object; the status and error fields must decode as strings. -/
def decodeResponse : Json → Option Response
  | Json.obj fields =>
    match decodeStringField fields "status", decodeStringField fields "error" with
    | some s, some e => some ⟨s, e, decodeAnyField fields "data"⟩
    | _, _ => none
  | _ => none

/-- Err logs the message at error level with op and the error text, sets
the JSON content type, writes the given status and encodes Error(msg). -/
def Err (op : String) (errText : String) (msg : String) (httpStatus : Int) :
    HTTPResponse × List LogRecord :=
  (⟨"application/json", httpStatus, encodeResponse (Error msg)⟩,
   [⟨LogLevel.error, msg, [("op", op), ("err", errText)]⟩])

end response

namespace httputils

/-- writeJSON sets the JSON content type, writes the status code and
encodes the given value; the value is represented by its JSON image. -/
def writeJSON (status : Int) (data : Json) : HTTPResponse :=
  ⟨"application/json", status, data⟩

/-- DecodeRequest. The call json.NewDecoder(r.Body).Decode(&req) for the
target shape T is abstracted by its outcome decodeResult: ok t when the
body is well-formed JSON conforming to T, error e (the parse error text)
otherwise; req0 is what the variable req holds after a failed decode.
Returns the decoded value and ok flag, the response written (if any) and
the log records emitted, in order. -/
def DecodeRequest {T : Type} (op : String) (req0 : T) (decodeResult : Except String T) :
    (T × Bool) × (Option HTTPResponse × List LogRecord) :=
  match decodeResult with
  | Except.error e =>
    let sent := response.Err op e "invalid request payload" 400
    ((req0, false),
     (some sent.1,
      ⟨LogLevel.error, "failed to decode request body", [("op", op), ("err", e)]⟩ :: sent.2))
  | Except.ok t => ((t, true), (none, []))

/-- ValidateRequest. The call validate.Struct(req) is abstracted by its
outcome validateResult: none when no declared constraint is violated,
some e (the validation error text) when at least one is. -/
def ValidateRequest {T : Type} (op : String) (req : T) (validateResult : Option String) :
    Bool × (Option HTTPResponse × List LogRecord) :=
  match validateResult with
  | some e =>
    let sent := response.Err op e "invalid input data" 400
    (false,
     (some sent.1,
      ⟨LogLevel.error, "validation failed",
        [("op", op), ("err", e), ("validation_errors", e)]⟩ :: sent.2))
  | none => (true, (none, []))

/-- SendOK writes response.OK() at status 200 and logs success. -/
def SendOK (op : String) : HTTPResponse × List LogRecord :=
  (writeJSON 200 (response.encodeResponse response.OK),
   [⟨LogLevel.info, "operation successful", [("op", op)]⟩])

/-- SendDataOK writes response.DataOK(data) at status 200 and logs success. -/
def SendDataOK (op : String) (data : Option Json) : HTTPResponse × List LogRecord :=
  (writeJSON 200 (response.encodeResponse (response.DataOK data)),
   [⟨LogLevel.info, "operation successful", [("op", op)]⟩])

/-- WriteHTTPError: when errors.As finds an apperr.HTTPError it logs
"handled error" and writes DataWithError or Error at the carried code,
depending on whether Data is non-nil; otherwise it logs "internal error"
and writes Error("internal server error") at status 500. -/
def WriteHTTPError (op : String) (err : GoError) : HTTPResponse × List LogRecord :=
  match err with
  | GoError.classified httpErr =>
    (if httpErr.Data.isSome then
       writeJSON httpErr.Code
         (response.encodeResponse (response.DataWithError httpErr.Message httpErr.Data))
     else
       writeJSON httpErr.Code
         (response.encodeResponse (response.Error httpErr.Message)),
     [⟨LogLevel.error, "handled error", [("op", op), ("err", httpErr.Error)]⟩])
  | GoError.unclassified m =>
    (writeJSON 500 (response.encodeResponse (response.Error "internal server error")),
     [⟨LogLevel.error, "internal error", [("op", op), ("err", m)]⟩])

end httputils

/-- A Response is constructed when it is the image of one of the four
envelope constructors. -/
def response.constructed (r : response.Response) : Prop :=
  r = response.OK ∨ (∃ d, r = response.DataOK d) ∨
    (∃ m, r = response.Error m) ∨ (∃ m d, r = response.DataWithError m d)

/-- Claim C1: for every error value that is not a classified error,
WriteHTTPError writes HTTP status 500 with body
\x7b"status":"Error","error":"internal server error"\x7d, and the written
response is identical for any two such errors regardless of their own
message text, so no internal error detail reaches the client. -/
theorem C1_unclassified_hides_detail :
    ∀ op m : String,
      (httputils.WriteHTTPError op (GoError.unclassified m)).1 =
        ⟨"application/json", 500,
          Json.obj [("status", Json.str "Error"),
                    ("error", Json.str "internal server error")]⟩ ∧
      ∀ op' m' : String,
        (httputils.WriteHTTPError op (GoError.unclassified m)).1 =
          (httputils.WriteHTTPError op' (GoError.unclassified m')).1 :=
  fun op m => ⟨rfl, fun op' m' => rfl⟩

/-- Claim C5: whenever the body fails to decode into the target shape,
DecodeRequest returns ok=false together with the zero-state value, and
writes exactly status 400 with body
\x7b"status":"Error","error":"invalid request payload"\x7d. -/
theorem C5_decode_failure {T : Type} :
    ∀ (op : String) (req0 : T) (e : String),
      httputils.DecodeRequest op req0 (Except.error e) =
        ((req0, false),
         (some ⟨"application/json", 400,
            Json.obj [("status", Json.str "Error"),
                      ("error", Json.str "invalid request payload")]⟩,
          [⟨LogLevel.error, "failed to decode request body", [("op", op), ("err", e)]⟩,
           ⟨LogLevel.error, "invalid request payload", [("op", op), ("err", e)]⟩])) :=
  fun op req0 e => rfl

/-- Claim C6: whenever at least one declared constraint is violated,
ValidateRequest returns false and writes exactly status 400 with body
\x7b"status":"Error","error":"invalid input data"\x7d; when no constraint is
violated it returns true and writes nothing. -/
theorem C6_validate {T : Type} :
    ∀ (op : String) (req : T) (e : String),
      httputils.ValidateRequest op req (some e) =
        (false,
         (some ⟨"application/json", 400,
            Json.obj [("status", Json.str "Error"),
                      ("error", Json.str "invalid input data")]⟩,
          [⟨LogLevel.error, "validation failed",
             [("op", op), ("err", e), ("validation_errors", e)]⟩,
           ⟨LogLevel.error, "invalid input data", [("op", op), ("err", e)]⟩])) ∧
      httputils.ValidateRequest op req none = (true, (none, [])) :=
  fun op req e => ⟨rfl, rfl⟩

/-- Claim C7: SendOK writes status 200 with body \x7b"status":"OK"\x7d, and
SendDataOK with data D writes status 200 with body
\x7b"status":"OK","data":D\x7d, for every data value D. -/
theorem C7_success_responses :
    ∀ (op : String) (d : Json),
      httputils.SendOK op =
        (⟨"application/json", 200, Json.obj [("status", Json.str "OK")]⟩,
         [⟨LogLevel.info, "operation successful", [("op", op)]⟩]) ∧
      httputils.SendDataOK op (some d) =
        (⟨"application/json", 200,
          Json.obj [("status", Json.str "OK"), ("data", d)]⟩,
         [⟨LogLevel.info, "operation successful", [("op", op)]⟩]) :=
  fun op d => ⟨rfl, rfl⟩

/-- Helper: WriteHTTPError on a classified error without payload and with a
non-empty message writes the message at the carried status code. -/
theorem writeHTTPError_classified_noData (op : String) (S : Int) (M : String) (h : M ≠ "") :
    (httputils.WriteHTTPError op (GoError.classified ⟨S, M, none⟩)).1 =
      ⟨"application/json", S,
        Json.obj [("status", Json.str "Error"), ("error", Json.str M)]⟩ := by
  show httputils.writeJSON S (response.encodeResponse (response.Error M)) = _
  simp [httputils.writeJSON, response.encodeResponse, response.Error,
        response.StatusError, if_neg h]

/-- Claim C2 counterexample: constructed with the empty message, the error
field is omitted from the body (omitempty), so the body is not
\x7b"status":"Error","error":""\x7d as the claim, instantiated at M = "",
states. -/
theorem C2_counterexample :
    (httputils.WriteHTTPError "op" (GoError.classified (apperr.New 422 ""))).1 ≠
      ⟨"application/json", 422,
        Json.obj [("status", Json.str "Error"), ("error", Json.str "")]⟩ := by
  simp [httputils.WriteHTTPError, apperr.New, httputils.writeJSON,
        response.Error, response.encodeResponse, response.StatusError]

/-- Claim C2 (amended): for every classified error built by New with status
S and a non-empty message M, WriteHTTPError writes exactly the body
\x7b"status":"Error","error":M\x7d at status S; when M is empty the error
field is omitted. -/
theorem C2_classified_no_payload (op : String) (S : Int) (M : String) (h : M ≠ "") :
    (httputils.WriteHTTPError op (GoError.classified (apperr.New S M))).1 =
      ⟨"application/json", S,
        Json.obj [("status", Json.str "Error"), ("error", Json.str M)]⟩ :=
  writeHTTPError_classified_noData op S M h

/-- Claim C2 witness at status 404 and message "user not found". -/
theorem C2_witness :
    "user not found" ≠ "" ∧
    (httputils.WriteHTTPError "op" (GoError.classified (apperr.New 404 "user not found"))).1 =
      ⟨"application/json", 404,
        Json.obj [("status", Json.str "Error"), ("error", Json.str "user not found")]⟩ :=
  ⟨by decide, C2_classified_no_payload "op" 404 "user not found" (by decide)⟩

/-- Claim C3 counterexample: with the empty message and a payload, the body
keeps the data field but omits the error field, so it is not
\x7b"status":"Error","error":"","data":D\x7d as the claim, instantiated at
M = "", states. -/
theorem C3_counterexample :
    (httputils.WriteHTTPError "op"
        (GoError.classified (apperr.NewWithData 207 "" (some (Json.num 1))))).1 ≠
      ⟨"application/json", 207,
        Json.obj [("status", Json.str "Error"), ("error", Json.str ""),
                  ("data", Json.num 1)]⟩ := by
  simp [httputils.WriteHTTPError, apperr.NewWithData, httputils.writeJSON,
        response.DataWithError, response.encodeResponse, response.StatusError]

/-- Claim C3 (amended): for every classified error built by NewWithData
with status S, a non-empty message M and a present payload D,
WriteHTTPError writes exactly the body
\x7b"status":"Error","error":M,"data":D\x7d at status S; when M is empty the
error field is omitted. -/
theorem C3_classified_with_payload (op : String) (S : Int) (M : String) (D : Json)
    (h : M ≠ "") :
    (httputils.WriteHTTPError op
        (GoError.classified (apperr.NewWithData S M (some D)))).1 =
      ⟨"application/json", S,
        Json.obj [("status", Json.str "Error"), ("error", Json.str M),
                  ("data", D)]⟩ := by
  show httputils.writeJSON S
      (response.encodeResponse (response.DataWithError M (some D))) = _
  simp [httputils.writeJSON, response.encodeResponse, response.DataWithError,
        response.StatusError, if_neg h]

/-- Claim C3 witness at status 409, message "partial failure" and an array
payload. -/
theorem C3_witness :
    "partial failure" ≠ "" ∧
    (httputils.WriteHTTPError "op"
        (GoError.classified
          (apperr.NewWithData 409 "partial failure" (some (Json.arr [Json.num 3]))))).1 =
      ⟨"application/json", 409,
        Json.obj [("status", Json.str "Error"), ("error", Json.str "partial failure"),
                  ("data", Json.arr [Json.num 3])]⟩ :=
  ⟨by decide, C3_classified_with_payload "op" 409 "partial failure" (Json.arr [Json.num 3]) (by decide)⟩

/-- Claim C10 counterexample: with a nil payload and the empty message the
response equals the one for New, but its body omits the error field, so
it is not \x7b"status":"Error","error":""\x7d as the claim, instantiated at
M = "", states. -/
theorem C10_counterexample :
    (httputils.WriteHTTPError "op"
        (GoError.classified (apperr.NewWithData 410 "" none))).1 ≠
      ⟨"application/json", 410,
        Json.obj [("status", Json.str "Error"), ("error", Json.str "")]⟩ := by
  simp [httputils.WriteHTTPError, apperr.NewWithData, httputils.writeJSON,
        response.Error, response.encodeResponse, response.StatusError]

/-- Claim C10 (amended): a classified error built by NewWithData with a nil
payload makes WriteHTTPError produce exactly the same response and log as
one built by New with the same status and message; for a non-empty
message M the shared body is \x7b"status":"Error","error":M\x7d with no data
field, at status S (for an empty M the error field is omitted). -/
theorem C10_nil_payload_like_New (op : String) (S : Int) (M : String) :
    httputils.WriteHTTPError op (GoError.classified (apperr.NewWithData S M none)) =
      httputils.WriteHTTPError op (GoError.classified (apperr.New S M)) ∧
    (M ≠ "" →
      (httputils.WriteHTTPError op (GoError.classified (apperr.NewWithData S M none))).1 =
        ⟨"application/json", S,
          Json.obj [("status", Json.str "Error"), ("error", Json.str M)]⟩) :=
  ⟨rfl, fun h => writeHTTPError_classified_noData op S M h⟩

/-- Claim C10 witness at status 409 and message "conflict". -/
theorem C10_witness :
    "conflict" ≠ "" ∧
    (httputils.WriteHTTPError "op"
        (GoError.classified (apperr.NewWithData 409 "conflict" none))).1 =
      ⟨"application/json", 409,
        Json.obj [("status", Json.str "Error"), ("error", Json.str "conflict")]⟩ :=
  ⟨by decide, (C10_nil_payload_like_New "op" 409 "conflict").2 (by decide)⟩

/-- Claim C4: every envelope produced by the four constructors never has
status OK together with a non-empty error message, while a data payload
can accompany either status. -/
theorem C4_invariant :
    (∀ r, response.constructed r → ¬(r.status = response.StatusOK ∧ r.error ≠ "")) ∧
    (∃ r, response.constructed r ∧ r.status = response.StatusOK ∧ r.data.isSome = true) ∧
    (∃ r, response.constructed r ∧ r.status = response.StatusError ∧ r.data.isSome = true) := by
  refine ⟨?_, ?_, ?_⟩
  · rintro r (rfl | ⟨d, rfl⟩ | ⟨m, rfl⟩ | ⟨m, d, rfl⟩) ⟨hs, he⟩
    · exact he rfl
    · exact he rfl
    · exact absurd hs (by simp [response.Error, response.StatusError, response.StatusOK])
    · exact absurd hs (by simp [response.DataWithError, response.StatusError, response.StatusOK])
  · exact ⟨response.DataOK (some (Json.num 7)),
      Or.inr (Or.inl ⟨some (Json.num 7), rfl⟩), rfl, rfl⟩
  · exact ⟨response.DataWithError "m" (some (Json.num 7)),
      Or.inr (Or.inr (Or.inr ⟨"m", some (Json.num 7), rfl⟩)), rfl, rfl⟩

/-- Claim C4 witness at the envelope DataOK(7). -/
theorem C4_witness :
    response.constructed (response.DataOK (some (Json.num 7))) ∧
    ¬((response.DataOK (some (Json.num 7))).status = response.StatusOK ∧
      (response.DataOK (some (Json.num 7))).error ≠ "") :=
  ⟨Or.inr (Or.inl ⟨some (Json.num 7), rfl⟩),
   C4_invariant.1 (response.DataOK (some (Json.num 7)))
     (Or.inr (Or.inl ⟨some (Json.num 7), rfl⟩))⟩

/-- Claim C8 counterexample: an envelope whose data payload is the JSON
null value (a non-nil interface marshalling to null) encodes to a body
with "data":null, which unmarshals back into the nil interface, so the
populated data field does not survive the round trip. -/
theorem C8_counterexample :
    response.decodeResponse
        (response.encodeResponse ⟨"OK", "", some Json.null⟩) ≠
      some ⟨"OK", "", some Json.null⟩ := by
  intro hcontra
  have hval : (some (⟨"OK", "", none⟩ : response.Response) : Option response.Response) =
      some ⟨"OK", "", some Json.null⟩ := hcontra
  simp at hval

/-- Claim C8 (amended): for every envelope whose data field, when present,
is not the JSON null value, encoding to JSON and decoding back yields
exactly the original envelope; omitted optional fields decode to their
absent representation (empty error string, nil data), not to null. -/
theorem C8_roundtrip (r : response.Response) (h : r.data ≠ some Json.null) :
    response.decodeResponse (response.encodeResponse r) = some r := by
  obtain ⟨s, e, d⟩ := r
  by_cases he : e = ""
  · subst he
    cases d with
    | none => rfl
    | some v =>
      cases v with
      | null => exact absurd rfl h
      | bool b => rfl
      | num n => rfl
      | str t => rfl
      | arr l => rfl
      | obj l => rfl
  · cases d with
    | none =>
      simp only [response.encodeResponse, if_neg he]
      rfl
    | some v =>
      cases v with
      | null => exact absurd rfl h
      | bool b => simp only [response.encodeResponse, if_neg he]; rfl
      | num n => simp only [response.encodeResponse, if_neg he]; rfl
      | str t => simp only [response.encodeResponse, if_neg he]; rfl
      | arr l => simp only [response.encodeResponse, if_neg he]; rfl
      | obj l => simp only [response.encodeResponse, if_neg he]; rfl

/-- Claim C8 witness at the envelope with status Error, message boom and a
numeric payload. -/
theorem C8_witness :
    ((some (Json.num 1) : Option Json) ≠ some Json.null) ∧
    response.decodeResponse
        (response.encodeResponse ⟨"Error", "boom", some (Json.num 1)⟩) =
      some ⟨"Error", "boom", some (Json.num 1)⟩ :=
  ⟨by intro hc; exact Json.noConfusion (Option.some.inj hc),
   C8_roundtrip ⟨"Error", "boom", some (Json.num 1)⟩
     (by intro hc; exact Json.noConfusion (Option.some.inj hc))⟩

/-- Claim C9 counterexample: a decode failure emits two log records, one at
detection in DecodeRequest and one inside response.Err, not exactly one. -/
theorem C9_counterexample :
    (httputils.DecodeRequest "op" (0 : Nat)
        (Except.error "unexpected EOF")).2.2.length ≠ 1 := by
  decide

/-- Claim C9 (amended): decode and validation failures each emit exactly
two log records, one at the point of detection in the pipeline helper and
one in the envelope-writing Err helper, while classified and unclassified
business errors each emit exactly one log record at response-writing. -/
theorem C9_log_counts {T : Type} (op e : String) (req0 : T) :
    (httputils.DecodeRequest op req0 (Except.error e)).2.2.length = 2 ∧
    (httputils.ValidateRequest op req0 (some e)).2.2.length = 2 ∧
    ∀ err : GoError, (httputils.WriteHTTPError op err).2.length = 1 := by
  refine ⟨rfl, rfl, ?_⟩
  intro err
  cases err with
  | classified he => rfl
  | unclassified m => rfl
